import Mathlib

/-!
Verification development for the vault control-loop core
(`backend/agents/orchestrator.py`, `backend/agents/risk_agent.py`,
`backend/agents/execution_agent.py`).

Numbers: Python `Decimal` arithmetic is embedded as `ℚ` (the operations used —
add, sub, mul, div, min, comparison — are exact there); Python `int` as `ℤ`;
timestamps as integer seconds.  Effectful collaborators (the LLM call, the
ledger, the database) are passed as explicit function parameters; a fallible
call is a value of `Except String α`.  The `timestamp` field of a
`RiskAnalysis` is a clock read and is not modelled.
-/

namespace Nexxore

/-- The `RiskAnalysis` dataclass of `risk_agent.py` (minus the `timestamp`
clock read). -/
structure RiskAnalysis where
  composite_score : ℤ
  protocol_risk : ℤ
  liquidity_risk : ℤ
  utilization_risk : ℤ
  governance_risk : ℤ
  oracle_risk : ℤ
  risk_level : String
  recommended_action : String
  action_urgency : String
  reasoning : String
  strategy_risks : List (String × ℤ)
  alerts : List String
  should_emergency_unwind : Bool
  unwind_strategies : List String
deriving Repr, DecidableEq

/-- Constant `AgentOrchestrator.MAX_RETRIES`. -/
def MAX_RETRIES : ℕ := 3

/-- Constant `AgentOrchestrator.RETRY_BACKOFF_BASE`. -/
def RETRY_BACKOFF_BASE : ℕ := 2

/-- The conservative analysis synthesized by
`AgentOrchestrator._run_risk_analysis_with_retry` after all retries fail
(orchestrator.py lines 237-253).  `lastError` is `str(last_error)`, with
Python rendering an initial `None` as `"None"`. -/
def conservativeAnalysis (lastError : Option String) : RiskAnalysis :=
  { composite_score := 7500
    protocol_risk := 7500
    liquidity_risk := 7500
    utilization_risk := 7500
    governance_risk := 7500
    oracle_risk := 7500
    risk_level := "HIGH_RISK"
    recommended_action := "Manual review required - analysis failed"
    action_urgency := "HIGH"
    reasoning := "Analysis failed: " ++ (match lastError with
      | some e => e
      | none => "None")
    strategy_risks := []
    alerts := ["Risk analysis failure - conservative score applied"]
    should_emergency_unwind := false
    unwind_strategies := [] }

/-- One execution of the retry loop body of
`_run_risk_analysis_with_retry`, made explicit: `attempt` is the loop index,
`remaining` the attempts left, `sleeps` the list of back-off sleeps issued so
far (seconds), `lastError` the last caught exception message.  Returns
(sleeps issued, number of attempts made, resulting analysis). -/
def runRetryAux (assessor : ℕ → Except String RiskAnalysis) :
    ℕ → ℕ → List ℕ → Option String → List ℕ × ℕ × RiskAnalysis
  | attempt, 0, sleeps, lastError => (sleeps, attempt, conservativeAnalysis lastError)
  | attempt, r + 1, sleeps, lastError =>
    match assessor attempt with
    | Except.ok a => (sleeps, attempt + 1, a)
    | Except.error e =>
        runRetryAux assessor (attempt + 1) r
          (sleeps ++ [RETRY_BACKOFF_BASE ^ attempt]) (some e)

/-- Method `AgentOrchestrator._run_risk_analysis_with_retry`: up to `MAX_RETRIES`
calls of the assessor; each caught exception records a sleep of
`RETRY_BACKOFF_BASE ^ attempt` seconds; on exhaustion the conservative
analysis is returned instead of propagating the error. -/
def run_risk_analysis_with_retry (assessor : ℕ → Except String RiskAnalysis) :
    List ℕ × ℕ × RiskAnalysis :=
  runRetryAux assessor 0 MAX_RETRIES [] none

/-- The emergency gate of `RiskAgent.analyze_risk` (risk_agent.py line 295):
`if analysis.composite_score >= 8000 or analysis.should_emergency_unwind`. -/
def emergencyUnwindTriggered (a : RiskAnalysis) : Bool :=
  decide (8000 ≤ a.composite_score) || a.should_emergency_unwind

/-- The rebalance gate of `AgentOrchestrator._run_monitoring_cycle`
(orchestrator.py line 181): `_check_and_execute_rebalance` — cooldown check,
proposer, submission and execution — runs exactly when
`risk_analysis.risk_level not in ["HIGH_RISK", "CRITICAL"]`. -/
def rebalanceConsidered (a : RiskAnalysis) : Bool :=
  !(decide (a.risk_level = "HIGH_RISK") || decide (a.risk_level = "CRITICAL"))

/-- The fields of the parsed (or defaulted) LLM response consumed by
`RiskAgent.analyze_risk` when building a `RiskAnalysis`. -/
structure RiskResult where
  composite_score : ℤ
  protocol_risk : ℤ
  liquidity_risk : ℤ
  utilization_risk : ℤ
  governance_risk : ℤ
  oracle_risk : ℤ
  risk_level : String
  recommended_action : String
  action_urgency : String
  reasoning : String
  strategy_risks : List (String × ℤ)
  alerts : List String
  should_emergency_unwind : Bool
  unwind_strategies : List String
deriving Repr, DecidableEq

/-- The default high-risk result substituted by `RiskAgent.analyze_risk`
when the response text cannot be parsed as JSON (risk_agent.py lines
253-271); `err` is the parse error's message. -/
def parseFallbackResult (err : String) : RiskResult :=
  { composite_score := 7000
    protocol_risk := 7000
    liquidity_risk := 7000
    utilization_risk := 7000
    governance_risk := 7000
    oracle_risk := 7000
    risk_level := "HIGH_RISK"
    recommended_action := "Manual review required - parse failure"
    action_urgency := "HIGH"
    reasoning := "Failed to parse AI response: " ++ err
    strategy_risks := []
    alerts := ["Parse failure - manual review required"]
    should_emergency_unwind := false
    unwind_strategies := [] }

/-- The tail of `RiskAgent.analyze_risk` after the LLM call: the JSON
extraction either yields a `RiskResult` or raises, in which case the parse
fallback is used; the analysis is then assembled field by field
(risk_agent.py lines 247-289).  The function is total: a parse failure never
propagates as an exception. -/
def analyze_risk_from_parse (parsed : Except String RiskResult) : RiskAnalysis :=
  let result := match parsed with
    | Except.ok r => r
    | Except.error e => parseFallbackResult e
  { composite_score := result.composite_score
    protocol_risk := result.protocol_risk
    liquidity_risk := result.liquidity_risk
    utilization_risk := result.utilization_risk
    governance_risk := result.governance_risk
    oracle_risk := result.oracle_risk
    risk_level := result.risk_level
    recommended_action := result.recommended_action
    action_urgency := result.action_urgency
    reasoning := result.reasoning
    strategy_risks := result.strategy_risks
    alerts := result.alerts
    should_emergency_unwind := result.should_emergency_unwind
    unwind_strategies := result.unwind_strategies }

/-! ## Execution agent (`execution_agent.py`) -/

/-- The `StrategyAllocation` dataclass of `execution_agent.py`
(allocations are fractions of TVL: the constructor divides the on-chain
basis-point values by `BASIS_POINTS`). -/
structure StrategyAllocation where
  address : String
  name : String
  current_allocation : ℚ
  target_allocation : ℚ
  max_allocation : ℚ
  total_deposited : ℚ
  current_apy : ℚ
  utilization : ℚ
deriving Repr, DecidableEq

/-- Constant `ExecutionAgent.REBALANCE_COOLDOWN` in seconds (7 days). -/
def REBALANCE_COOLDOWN : ℤ := 7 * 86400

/-- Constant `ExecutionAgent.MAX_SINGLE_REBALANCE_BPS`. -/
def MAX_SINGLE_REBALANCE_BPS : ℚ := 1500

/-- Constant `ExecutionAgent.MIN_IDLE_BUFFER_BPS`. -/
def MIN_IDLE_BUFFER_BPS : ℚ := 500

/-- Constant `ExecutionAgent.BASIS_POINTS`. -/
def BASIS_POINTS : ℚ := 10000

/-- Method `ExecutionAgent.can_rebalance` (execution_agent.py lines 106-115), with
the wall clock `now` and the ledger's `lastRebalanceTime` passed as POSIX
seconds.  The remaining-time message uses `timedelta.days` and
`timedelta.seconds // 3600`, i.e. floor divisions of the remaining seconds. -/
def can_rebalance (now lastRebalanceTime : ℤ) : Bool × Option String :=
  if now < lastRebalanceTime + REBALANCE_COOLDOWN then
    let time_remaining := lastRebalanceTime + REBALANCE_COOLDOWN - now
    (false, some ("Cooldown active. " ++ toString (time_remaining / 86400) ++ "d "
      ++ toString (time_remaining % 86400 / 3600) ++ "h remaining"))
  else
    (true, none)

/-- The per-strategy weight of `ExecutionAgent.calculate_optimal_allocation`
(execution_agent.py lines 164-171): APY times inverse utilization, capped at
the strategy's max allocation. -/
def strategyWeight (a : StrategyAllocation) : ℚ :=
  min (a.current_apy * (1 - a.utilization)) a.max_allocation

/-- Python dict assignment `d[k] = v` on an association list: replace the
binding of `k` if present, else append a new binding. -/
def upsert : List (String × ℚ) → String → ℚ → List (String × ℚ)
  | [], n, v => [(n, v)]
  | (k, w) :: rest, n, v =>
      if k = n then (k, v) :: rest else (k, w) :: upsert rest n v

/-- The weight-accumulation loop of `calculate_optimal_allocation`
(execution_agent.py lines 161-172): builds the `weights` dict and the running
`total_weight` (the total adds the value just stored on every iteration). -/
def buildWeightsStep (st : List (String × ℚ) × ℚ) (a : StrategyAllocation) :
    List (String × ℚ) × ℚ :=
  let w := strategyWeight a
  (upsert st.1 a.name w, st.2 + w)

/-- The fold of `buildWeightsStep` over the allocation list, starting from
the empty dict and zero total. -/
def buildWeights (allocations : List StrategyAllocation) :
    List (String × ℚ) × ℚ :=
  allocations.foldl buildWeightsStep ([], 0)

/-- Method `ExecutionAgent.calculate_optimal_allocation` (execution_agent.py lines
156-184): normalize the capped weights to `1 − MIN_IDLE_BUFFER_BPS/BASIS_POINTS`
of TVL; when the total weight is not positive, split that budget equally
across the dict's entries.  An empty input never reaches the division: the
output map is empty. -/
def calculate_optimal_allocation (allocations : List StrategyAllocation) :
    List (String × ℚ) :=
  let wt := buildWeights allocations
  let available : ℚ := 1 - MIN_IDLE_BUFFER_BPS / BASIS_POINTS
  wt.1.map (fun p =>
    (p.1, if 0 < wt.2 then p.2 / wt.2 * available else available / (wt.1.length : ℚ)))

/-- Lookup `dict.get(name, Decimal(0))` on the optimizer's output. -/
def lookupD (m : List (String × ℚ)) (k : String) : ℚ :=
  match m.find? (fun p => p.1 = k) with
  | some p => p.2
  | none => 0

/-- The deviation `current_allocation − optimal.get(name, 0)` computed by
`ExecutionAgent.propose_rebalance` for each strategy (execution_agent.py
lines 207-210). -/
def deviationOf (optimal : List (String × ℚ)) (a : StrategyAllocation) : ℚ :=
  a.current_allocation - lookupD optimal a.name

/-- The from/to selection loop of `ExecutionAgent.propose_rebalance`
(execution_agent.py lines 202-216), verbatim: a running `max_deviation`
starting at 0; `deviation > max_deviation` updates the maximum and
`from_strat`; otherwise `deviation < -max_deviation` overwrites `to_strat`.
Returns (max_deviation, from_strat, to_strat). -/
def rebalanceStep (optimal : List (String × ℚ))
    (st : ℚ × Option StrategyAllocation × Option StrategyAllocation)
    (a : StrategyAllocation) :
    ℚ × Option StrategyAllocation × Option StrategyAllocation :=
  let deviation := deviationOf optimal a
  if st.1 < deviation then (deviation, some a, st.2.2)
  else if deviation < -st.1 then (st.1, st.2.1, some a)
  else st

/-- The selection loop folded over the allocation list, starting from
`max_deviation = 0`, `from_strat = None`, `to_strat = None`. -/
def findRebalancePair (allocations : List StrategyAllocation)
    (optimal : List (String × ℚ)) :
    ℚ × Option StrategyAllocation × Option StrategyAllocation :=
  allocations.foldl (rebalanceStep optimal) (0, none, none)

/-- The amount computation of `ExecutionAgent.propose_rebalance`
(execution_agent.py lines 227-240): `min(from.total_deposited × max_deviation,
tvl × MAX_SINGLE_REBALANCE_BPS / BASIS_POINTS)`, re-assigned to the target's
remaining headroom when the move would push the target above its max
allocation, and `none` when the final amount is not positive. -/
def computeRebalanceAmount (from_strat to_strat : StrategyAllocation)
    (max_deviation tvl : ℚ) : Option ℚ :=
  let max_amount := tvl * MAX_SINGLE_REBALANCE_BPS / BASIS_POINTS
  let amount := min (from_strat.total_deposited * max_deviation) max_amount
  let target_new_alloc := (to_strat.total_deposited + amount) / tvl
  let amount' := if to_strat.max_allocation < target_new_alloc
    then to_strat.max_allocation * tvl - to_strat.total_deposited
    else amount
  if amount' ≤ 0 then none else some amount'

/-! ## Risk agent emergency unwind (`risk_agent.py` lines 331-384) -/

/-- Outcome of one strategy inside the emergency-unwind batch. -/
inductive UnwindOutcome where
  | success (txHash : String)
  | notFound
  | failed (err : String)
deriving Repr, DecidableEq

/-- The body of the per-strategy loop of
`RiskAgent._execute_emergency_unwind`: resolve the strategy's address in the
vault's registry (a list of (address, name) pairs); a missing strategy is
logged and skipped; otherwise the unwind transaction is sent through the
effect `unwind`, whose exception is caught and logged rather than
propagated. -/
def unwindOne (registry : List (String × String))
    (unwind : String → Except String String) (strategyName : String) :
    String × UnwindOutcome :=
  match registry.find? (fun s => s.2 = strategyName) with
  | none => (strategyName, UnwindOutcome.notFound)
  | some s =>
    match unwind s.1 with
    | Except.ok tx => (strategyName, UnwindOutcome.success tx)
    | Except.error e => (strategyName, UnwindOutcome.failed e)

/-- Method `RiskAgent._execute_emergency_unwind` (risk_agent.py lines 331-384): the
batch iterates every flagged strategy in order; each iteration's entire body
sits inside its own try/except, so one strategy's failure never aborts the
remainder of the batch. -/
def execute_emergency_unwind (registry : List (String × String))
    (unwind : String → Except String String) (unwindStrategies : List String) :
    List (String × UnwindOutcome) :=
  unwindStrategies.foldl (fun acc n => acc ++ [unwindOne registry unwind n]) []

/-! ## Test fixtures -/

/-- Fixture: a risk analysis with the given composite score, risk level and
unwind flag; the remaining fields are benign. -/
def testAnalysis (score : ℤ) (level : String) (unwind : Bool) : RiskAnalysis :=
  { composite_score := score
    protocol_risk := 0
    liquidity_risk := 0
    utilization_risk := 0
    governance_risk := 0
    oracle_risk := 0
    risk_level := level
    recommended_action := ""
    action_urgency := ""
    reasoning := ""
    strategy_risks := []
    alerts := []
    should_emergency_unwind := unwind
    unwind_strategies := [] }

/-- Fixture: the vault's strategy registry used in the unwind examples. -/
def testRegistry : List (String × String) :=
  [("0xaaa", "s1"), ("0xbbb", "s2"), ("0xccc", "s3")]

/-- Fixture: an unwind effect that reverts for the second strategy's address
and succeeds for every other one. -/
def failSecond : String → Except String String := fun addr =>
  if addr = "0xbbb" then Except.error "execution reverted"
  else Except.ok ("tx-" ++ addr)

/-- Fixture: a strategy allocation with the given name and current
allocation fraction; other fields benign. -/
def testAlloc (nm : String) (cur : ℚ) : StrategyAllocation :=
  { address := "0x" ++ nm
    name := nm
    current_allocation := cur
    target_allocation := cur
    max_allocation := 1
    total_deposited := 1000000
    current_apy := 1/20
    utilization := 3/4 }

/-- Fixture: strategy A, over-allocated by 2% against `testOptimal`. -/
def allocCA : StrategyAllocation := testAlloc "A" (1/10)

/-- Fixture: strategy B, under-allocated by 10% against `testOptimal`. -/
def allocCB : StrategyAllocation := testAlloc "B" (1/20)

/-- Fixture: strategy C, under-allocated by 3% against `testOptimal`. -/
def allocCC : StrategyAllocation := testAlloc "C" (1/10)

/-- Fixture: an optimizer output giving deviations +1/50 for A, −1/10 for B
and −3/100 for C. -/
def testOptimal : List (String × ℚ) := [("A", 2/25), ("B", 3/20), ("C", 13/100)]

/-- Fixture: the over-allocated strategy of the spec's worked example —
4000 bps current against a 2500 bps target, holding $4,000,000. -/
def specFrom : StrategyAllocation :=
  { address := "0xfrom"
    name := "stratA"
    current_allocation := 2/5
    target_allocation := 1/4
    max_allocation := 1
    total_deposited := 4000000
    current_apy := 1/20
    utilization := 3/4 }

/-- Fixture: the under-allocated strategy of the spec's worked example —
1000 bps current against a 2500 bps target, capped at 2000 bps, holding
$1,000,000. -/
def specTo : StrategyAllocation :=
  { address := "0xto"
    name := "stratB"
    current_allocation := 1/10
    target_allocation := 1/4
    max_allocation := 1/5
    total_deposited := 1000000
    current_apy := 1/20
    utilization := 3/4 }

/-- Fixture: a productive strategy whose cap (1000 bps) is far below the
post-normalization budget. -/
def capA : StrategyAllocation :=
  { address := "0xcapA"
    name := "capA"
    current_allocation := 1/10
    target_allocation := 1/10
    max_allocation := 1/10
    total_deposited := 1000000
    current_apy := 1/20
    utilization := 0 }

/-- Fixture: a fully-utilized strategy contributing zero weight. -/
def capB : StrategyAllocation :=
  { address := "0xcapB"
    name := "capB"
    current_allocation := 1/10
    target_allocation := 1/10
    max_allocation := 1/2
    total_deposited := 1000000
    current_apy := 1/20
    utilization := 1 }

/-- Fixture: a strategy with zero APY, hence zero optimizer weight. -/
def zeroW (nm : String) : StrategyAllocation :=
  { address := "0x" ++ nm
    name := nm
    current_allocation := 1/10
    target_allocation := 1/10
    max_allocation := 1/2
    total_deposited := 1000000
    current_apy := 0
    utilization := 1/2 }

/-! ## Theorems -/

/-- Helper: a fold that appends one result per element is a map. -/
lemma foldl_append_singleton {α β : Type} (f : α → β) :
    ∀ (l : List α) (acc : List β),
      l.foldl (fun a n => a ++ [f n]) acc = acc ++ l.map f := by
  intro l
  induction l with
  | nil => simp
  | cons x xs ih => intro acc; simp [ih]

/-- Helper: the emergency-unwind batch maps each flagged strategy to its own
outcome. -/
lemma execute_emergency_unwind_eq_map (registry : List (String × String))
    (unwind : String → Except String String) (ns : List String) :
    execute_emergency_unwind registry unwind ns
      = ns.map (unwindOne registry unwind) := by
  simp [execute_emergency_unwind, foldl_append_singleton]

/-- C1: when every call to the risk assessor raises, the orchestrator's
retry driver makes exactly 3 attempts, sleeping 1s after the first failure,
2s after the second and 4s after the third, and then — instead of
propagating any exception — returns a synthesized analysis whose composite
score and all five component scores are 7500, whose risk level is
HIGH_RISK, and whose emergency-unwind flag is false. -/
theorem retry_exhaustion_degrades_conservatively
    (assessor : ℕ → Except String RiskAnalysis)
    (h : ∀ i, ∃ e, assessor i = Except.error e) :
    (run_risk_analysis_with_retry assessor).1 = [1, 2, 4] ∧
    (run_risk_analysis_with_retry assessor).2.1 = 3 ∧
    (run_risk_analysis_with_retry assessor).2.2.composite_score = 7500 ∧
    (run_risk_analysis_with_retry assessor).2.2.protocol_risk = 7500 ∧
    (run_risk_analysis_with_retry assessor).2.2.liquidity_risk = 7500 ∧
    (run_risk_analysis_with_retry assessor).2.2.utilization_risk = 7500 ∧
    (run_risk_analysis_with_retry assessor).2.2.governance_risk = 7500 ∧
    (run_risk_analysis_with_retry assessor).2.2.oracle_risk = 7500 ∧
    (run_risk_analysis_with_retry assessor).2.2.risk_level = "HIGH_RISK" ∧
    (run_risk_analysis_with_retry assessor).2.2.should_emergency_unwind = false := by
  obtain ⟨e0, h0⟩ := h 0
  obtain ⟨e1, h1⟩ := h 1
  obtain ⟨e2, h2⟩ := h 2
  simp [run_risk_analysis_with_retry, MAX_RETRIES, runRetryAux, h0, h1, h2,
    RETRY_BACKOFF_BASE, conservativeAnalysis]

/-- Witness for C1 at the assessor that always raises. -/
theorem retry_exhaustion_degrades_conservatively_witness :
    (run_risk_analysis_with_retry
        (fun _ : ℕ => (Except.error "boom" : Except String RiskAnalysis))).1 = [1, 2, 4] ∧
    (run_risk_analysis_with_retry
        (fun _ : ℕ => (Except.error "boom" : Except String RiskAnalysis))).2.1 = 3 ∧
    (run_risk_analysis_with_retry
        (fun _ : ℕ => (Except.error "boom" : Except String RiskAnalysis))).2.2.composite_score
      = 7500 := by
  refine ⟨?_, ?_, ?_⟩
  · exact (retry_exhaustion_degrades_conservatively _ (fun i => ⟨"boom", rfl⟩)).1
  · exact (retry_exhaustion_degrades_conservatively _ (fun i => ⟨"boom", rfl⟩)).2.1
  · exact (retry_exhaustion_degrades_conservatively _ (fun i => ⟨"boom", rfl⟩)).2.2.1

/-- C2: the risk agent invokes the emergency-unwind branch if and only if
the analysis's composite score is at least 8000 or its emergency-unwind
flag is set; in particular score 8000 without the flag triggers it, score
7999 with the flag triggers it, and score 7999 without the flag does not. -/
theorem emergency_trigger_iff :
    (∀ a : RiskAnalysis, emergencyUnwindTriggered a = true ↔
        (8000 ≤ a.composite_score ∨ a.should_emergency_unwind = true)) ∧
    emergencyUnwindTriggered (testAnalysis 8000 "CRITICAL" false) = true ∧
    emergencyUnwindTriggered (testAnalysis 7999 "HIGH_RISK" true) = true ∧
    emergencyUnwindTriggered (testAnalysis 7999 "HIGH_RISK" false) = false := by
  refine ⟨fun a => ?_, by decide, by decide, by decide⟩
  simp [emergencyUnwindTriggered]

/-- C3 counterexample: an analysis with composite score 9000 (≥ 8000) whose
risk-level string is "NORMAL" still reaches rebalance consideration — the
monitoring cycle's gate looks only at the risk-level string, so the
cooldown check, the proposer and submission are not skipped. -/
theorem high_score_still_considers_rebalance :
    8000 ≤ (testAnalysis 9000 "NORMAL" false).composite_score ∧
    rebalanceConsidered (testAnalysis 9000 "NORMAL" false) = true := by
  decide

/-- C3 (amended): the monitoring cycle skips rebalance consideration — the
cooldown check, the proposer and proposal submission/execution — exactly
when the analysis's risk-level string is HIGH_RISK or CRITICAL; the
composite score and the emergency-unwind flag play no role in this gate. -/
theorem rebalance_skip_characterization (a : RiskAnalysis) :
    rebalanceConsidered a = false ↔
      (a.risk_level = "HIGH_RISK" ∨ a.risk_level = "CRITICAL") := by
  simp only [rebalanceConsidered, Bool.not_eq_false', Bool.or_eq_true,
    decide_eq_true_eq]

/-- Witness for the amended C3 at a concrete HIGH_RISK analysis. -/
theorem rebalance_skip_characterization_witness :
    rebalanceConsidered (testAnalysis 7500 "HIGH_RISK" false) = false ↔
      ((testAnalysis 7500 "HIGH_RISK" false).risk_level = "HIGH_RISK" ∨
       (testAnalysis 7500 "HIGH_RISK" false).risk_level = "CRITICAL") :=
  rebalance_skip_characterization (testAnalysis 7500 "HIGH_RISK" false)

/-- Helper: string-literal inequalities used to evaluate fixture lookups. -/
lemma decide_str_AB : decide ("A" = ("B" : String)) = false := by decide

/-- Helper: string-literal inequality between the A and C fixtures. -/
lemma decide_str_AC : decide ("A" = ("C" : String)) = false := by decide

/-- Helper: string-literal inequality between the B and C fixtures. -/
lemma decide_str_BC : decide ("B" = ("C" : String)) = false := by decide

/-- Helper: deviation of fixture A against the fixture optimizer output. -/
lemma dev_allocCA : deviationOf testOptimal allocCA = 1/50 := by
  norm_num [deviationOf, lookupD, testOptimal, allocCA, testAlloc, List.find?]

/-- Helper: deviation of fixture B against the fixture optimizer output. -/
lemma dev_allocCB : deviationOf testOptimal allocCB = -(1/10) := by
  norm_num [deviationOf, lookupD, testOptimal, allocCB, testAlloc, List.find?,
    decide_str_AB]

/-- Helper: deviation of fixture C against the fixture optimizer output. -/
lemma dev_allocCC : deviationOf testOptimal allocCC = -(3/100) := by
  norm_num [deviationOf, lookupD, testOptimal, allocCC, testAlloc, List.find?,
    decide_str_AC, decide_str_BC]

/-- Helper: invariant of the from/to selection fold — `max_deviation` stays
non-negative and only grows, `from_strat`, when set, carries exactly the
current `max_deviation` (then positive), and every processed strategy's
deviation is bounded by the final `max_deviation`. -/
lemma rebalanceStep_foldl_inv (optimal : List (String × ℚ)) :
    ∀ (l : List StrategyAllocation)
      (st : ℚ × Option StrategyAllocation × Option StrategyAllocation),
      0 ≤ st.1 →
      (∀ f, st.2.1 = some f → deviationOf optimal f = st.1 ∧ 0 < st.1) →
      0 ≤ (l.foldl (rebalanceStep optimal) st).1 ∧
      st.1 ≤ (l.foldl (rebalanceStep optimal) st).1 ∧
      (∀ f, (l.foldl (rebalanceStep optimal) st).2.1 = some f →
        deviationOf optimal f = (l.foldl (rebalanceStep optimal) st).1 ∧
        0 < (l.foldl (rebalanceStep optimal) st).1) ∧
      (∀ a ∈ l, deviationOf optimal a ≤ (l.foldl (rebalanceStep optimal) st).1) := by
  intro l
  induction l with
  | nil =>
    intro st h0 hf
    exact ⟨h0, le_refl _, hf, by simp⟩
  | cons x xs ih =>
    intro st h0 hf
    rw [List.foldl_cons]
    by_cases hlt : st.1 < deviationOf optimal x
    · have hstep : rebalanceStep optimal st x = (deviationOf optimal x, some x, st.2.2) := by
        simp [rebalanceStep, hlt]
      rw [hstep]
      have h0' : (0:ℚ) ≤ deviationOf optimal x := le_of_lt (lt_of_le_of_lt h0 hlt)
      have hf' : ∀ f, (some x : Option StrategyAllocation) = some f →
          deviationOf optimal f = deviationOf optimal x ∧ 0 < deviationOf optimal x := by
        intro f hfx
        cases Option.some.injEq x f ▸ hfx
        exact ⟨rfl, lt_of_le_of_lt h0 hlt⟩
      obtain ⟨i0, i1, i2, i3⟩ := ih (deviationOf optimal x, some x, st.2.2) h0' hf'
      refine ⟨i0, le_of_lt (lt_of_lt_of_le hlt i1), i2, ?_⟩
      intro a ha
      rcases List.mem_cons.mp ha with h | h
      · exact h ▸ i1
      · exact i3 a h
    · have hdev : deviationOf optimal x ≤ st.1 := not_lt.mp hlt
      have hcarry :
          (rebalanceStep optimal st x).1 = st.1 ∧
          (rebalanceStep optimal st x).2.1 = st.2.1 := by
        by_cases hneg : deviationOf optimal x < -st.1
        · simp [rebalanceStep, hlt, hneg]
        · simp [rebalanceStep, hlt, hneg]
      have hst : rebalanceStep optimal st x =
          (st.1, st.2.1, (rebalanceStep optimal st x).2.2) := by
        obtain ⟨hc1, hc2⟩ := hcarry
        exact Prod.ext hc1 (Prod.ext hc2 rfl)
      rw [hst]
      obtain ⟨i0, i1, i2, i3⟩ :=
        ih (st.1, st.2.1, (rebalanceStep optimal st x).2.2) h0 hf
      refine ⟨i0, i1, i2, ?_⟩
      intro a ha
      rcases List.mem_cons.mp ha with rfl | h
      · exact le_trans hdev i1
      · exact i3 a h

/-- C5 counterexample: against `testOptimal`, iterating A, B, C selects C
as the `to` strategy even though B's deviation (−1/10) has strictly larger
magnitude than C's (−3/100), and iterating A, C, B selects B — so the `to`
extreme is neither the largest-magnitude negative deviation nor independent
of iteration order. -/
theorem rebalance_to_selection_order_dependent :
    (findRebalancePair [allocCA, allocCB, allocCC] testOptimal).2.2 = some allocCC ∧
    deviationOf testOptimal allocCB < deviationOf testOptimal allocCC ∧
    (findRebalancePair [allocCA, allocCC, allocCB] testOptimal).2.2 = some allocCB := by
  refine ⟨?_, ?_, ?_⟩
  · simp only [findRebalancePair, List.foldl, rebalanceStep, dev_allocCA,
      dev_allocCB, dev_allocCC]
    norm_num
  · rw [dev_allocCB, dev_allocCC]; norm_num
  · simp only [findRebalancePair, List.foldl, rebalanceStep, dev_allocCA,
      dev_allocCB, dev_allocCC]
    norm_num

/-- C5 (amended): the `from` side of the claim holds — a selected `from`
strategy always attains the single largest (and positive) deviation, equal
to the fold's final `max_deviation` — but the `to` side does not: `to` is
the last strategy in iteration order whose deviation was below the negated
running maximum when visited, so it depends on iteration order and need not
have the largest-magnitude negative deviation. -/
theorem rebalance_from_attains_max_deviation (optimal : List (String × ℚ))
    (allocations : List StrategyAllocation) (f : StrategyAllocation)
    (h : (findRebalancePair allocations optimal).2.1 = some f) :
    0 < deviationOf optimal f ∧
    deviationOf optimal f = (findRebalancePair allocations optimal).1 ∧
    ∀ a ∈ allocations, deviationOf optimal a ≤ deviationOf optimal f := by
  obtain ⟨i0, i1, i2, i3⟩ :=
    rebalanceStep_foldl_inv optimal allocations (0, none, none) (le_refl 0)
      (by intro f hf; cases hf)
  obtain ⟨hdf, hpos⟩ := i2 f h
  exact ⟨hdf ▸ hpos, hdf, fun a ha => hdf ▸ i3 a ha⟩

/-- Witness for the amended C5: A is selected as `from` in the concrete
three-strategy example and attains the maximal deviation. -/
theorem rebalance_from_attains_max_deviation_witness :
    0 < deviationOf testOptimal allocCA ∧
    deviationOf testOptimal allocCA =
      (findRebalancePair [allocCA, allocCB, allocCC] testOptimal).1 := by
  have h := rebalance_from_attains_max_deviation testOptimal
    [allocCA, allocCB, allocCC] allocCA (by
      simp only [findRebalancePair, List.foldl, rebalanceStep, dev_allocCA,
        dev_allocCB, dev_allocCC]
      norm_num)
  exact ⟨h.1, h.2.1⟩

/-- Helper: Python dict assignment with a fresh key appends the binding. -/
lemma upsert_of_fresh (n : String) (v : ℚ) :
    ∀ ws : List (String × ℚ), (∀ p ∈ ws, p.1 ≠ n) →
      upsert ws n v = ws ++ [(n, v)] := by
  intro ws
  induction ws with
  | nil => intro; rfl
  | cons q rest ih =>
    intro hf
    obtain ⟨k, w⟩ := q
    have hk : k ≠ n := hf (k, w) (List.mem_cons_self _ _)
    simp only [upsert, if_neg hk]
    rw [ih (fun p hp => hf p (List.mem_cons_of_mem _ hp))]
    simp

/-- Helper: with pairwise-distinct strategy names the weight fold collects
one binding per strategy and totals exactly the sum of the weights. -/
lemma buildWeights_go :
    ∀ (l : List StrategyAllocation) (ws : List (String × ℚ)) (t : ℚ),
      (∀ a ∈ l, ∀ p ∈ ws, p.1 ≠ a.name) →
      (l.map StrategyAllocation.name).Nodup →
      l.foldl buildWeightsStep (ws, t) =
        (ws ++ l.map (fun a => (a.name, strategyWeight a)),
         t + (l.map strategyWeight).sum) := by
  intro l
  induction l with
  | nil => intro ws t _ _; simp
  | cons x xs ih =>
    intro ws t hfresh hnd
    rw [List.foldl_cons]
    have hx : buildWeightsStep (ws, t) x =
        (ws ++ [(x.name, strategyWeight x)], t + strategyWeight x) := by
      simp only [buildWeightsStep]
      rw [upsert_of_fresh _ _ _ (fun p hp => hfresh x (List.mem_cons_self _ _) p hp)]
    rw [hx]
    have hxnotin : x.name ∉ xs.map StrategyAllocation.name := (List.nodup_cons.mp hnd).1
    have hfresh' : ∀ a ∈ xs, ∀ p ∈ ws ++ [(x.name, strategyWeight x)],
        p.1 ≠ a.name := by
      intro a ha p hp
      rcases List.mem_append.mp hp with h | h
      · exact hfresh a (List.mem_cons_of_mem _ ha) p h
      · rcases List.mem_singleton.mp h with rfl
        intro hcontra
        have hxa : x.name = a.name := hcontra
        exact hxnotin (by rw [hxa]; exact List.mem_map_of_mem _ ha)
    rw [ih _ _ hfresh' (List.nodup_cons.mp hnd).2]
    simp [List.append_assoc]
    ring

/-- Helper: the weight dict under distinct names, in closed form. -/
lemma buildWeights_eq (allocations : List StrategyAllocation)
    (hnd : (allocations.map StrategyAllocation.name).Nodup) :
    buildWeights allocations =
      (allocations.map (fun a => (a.name, strategyWeight a)),
       (allocations.map strategyWeight).sum) := by
  have h := buildWeights_go allocations [] 0 (by intro a _ p hp; cases hp) hnd
  simpa [buildWeights] using h

/-- Helper: sum of a constant over a list. -/
lemma sum_map_const_q {α : Type} (l : List α) (c : ℚ) :
    (l.map (fun _ => c)).sum = (l.length : ℚ) * c := by
  induction l with
  | nil => simp
  | cons x xs ih =>
    simp [ih]
    ring

/-- Helper: a common factor moves out of a list sum. -/
lemma sum_map_mul_right_q {α : Type} (l : List α) (f : α → ℚ) (c : ℚ) :
    (l.map (fun x => f x * c)).sum = (l.map f).sum * c := by
  induction l with
  | nil => simp
  | cons x xs ih =>
    simp [ih]
    ring

/-- C7: for every non-empty strategy list with pairwise-distinct names the
optimizer's targets sum to exactly `1 − 500/10000` of TVL (9500 bps) —
including the zero-total-weight case, where every strategy receives the
equal share `available / n` — and on the empty list the optimizer is total
and returns the empty map. -/
theorem optimizer_conservation (allocations : List StrategyAllocation)
    (hnd : (allocations.map StrategyAllocation.name).Nodup)
    (hne : allocations ≠ []) :
    ((calculate_optimal_allocation allocations).map Prod.snd).sum
        = 1 - MIN_IDLE_BUFFER_BPS / BASIS_POINTS ∧
    ((buildWeights allocations).2 = 0 →
      ∀ p ∈ calculate_optimal_allocation allocations,
        p.2 = (1 - MIN_IDLE_BUFFER_BPS / BASIS_POINTS) / (allocations.length : ℚ)) ∧
    calculate_optimal_allocation [] = [] := by
  have hbw := buildWeights_eq allocations hnd
  have hlen : ((allocations.length : ℚ)) ≠ 0 := by
    have : allocations.length ≠ 0 := fun h => hne (List.length_eq_zero.mp h)
    exact_mod_cast Nat.cast_ne_zero.mpr this
  refine ⟨?_, ?_, rfl⟩
  · simp only [calculate_optimal_allocation, hbw]
    by_cases htot : 0 < (allocations.map strategyWeight).sum
    · simp only [if_pos htot, List.map_map]
      have hfe : Prod.snd ∘ (fun p : String × ℚ =>
            (p.1, p.2 / (allocations.map strategyWeight).sum *
              (1 - MIN_IDLE_BUFFER_BPS / BASIS_POINTS)))
          ∘ (fun a : StrategyAllocation => (a.name, strategyWeight a))
          = fun a : StrategyAllocation => strategyWeight a *
              ((1 - MIN_IDLE_BUFFER_BPS / BASIS_POINTS) /
                (allocations.map strategyWeight).sum) := by
        funext a
        simp only [Function.comp]
        ring
      rw [hfe, sum_map_mul_right_q, mul_comm, div_mul_cancel₀ _ (ne_of_gt htot)]
    · simp only [if_neg htot, List.map_map]
      have hfe : Prod.snd ∘ (fun p : String × ℚ =>
            (p.1, (1 - MIN_IDLE_BUFFER_BPS / BASIS_POINTS) /
              (((allocations.map fun a => (a.name, strategyWeight a)).length : ℚ))))
          ∘ (fun a : StrategyAllocation => (a.name, strategyWeight a))
          = fun _ : StrategyAllocation =>
              (1 - MIN_IDLE_BUFFER_BPS / BASIS_POINTS) / (allocations.length : ℚ) := by
        funext a
        simp [Function.comp, List.length_map]
      rw [hfe, sum_map_const_q, mul_comm, div_mul_cancel₀ _ hlen]
  · intro htot0 p hp
    simp only [calculate_optimal_allocation, hbw] at hp
    rw [hbw] at htot0
    simp only at htot0
    rw [htot0] at hp
    simp only [lt_irrefl, if_neg (lt_irrefl (0 : ℚ))] at hp
    obtain ⟨q, _, rfl⟩ := List.mem_map.mp hp
    simp [List.length_map]

/-- Witness for C7 on a two-strategy zero-total-weight list: the targets
sum to 19/20 and each strategy receives the equal split. -/
theorem optimizer_conservation_witness :
    ((([zeroW "X", zeroW "Y"].map StrategyAllocation.name).Nodup ∧
        [zeroW "X", zeroW "Y"] ≠ []) ∧
      ((calculate_optimal_allocation [zeroW "X", zeroW "Y"]).map Prod.snd).sum
        = 1 - MIN_IDLE_BUFFER_BPS / BASIS_POINTS) := by
  have hnd : ([zeroW "X", zeroW "Y"].map StrategyAllocation.name).Nodup := by
    simp [zeroW]
  have hne : [zeroW "X", zeroW "Y"] ≠ [] := by simp
  exact ⟨⟨hnd, hne⟩, (optimizer_conservation [zeroW "X", zeroW "Y"] hnd hne).1⟩

/-- C8 counterexample: with a productive strategy capped at 1000 bps next
to a zero-weight strategy, normalization assigns the productive strategy a
9500 bps target — far above its 1000 bps `max_allocation` cap, which is
applied to the pre-normalization weight only. -/
theorem optimizer_target_exceeds_cap :
    calculate_optimal_allocation [capA, capB] =
      [("capA", 19/20), ("capB", 0)] ∧
    capA.max_allocation < 19/20 := by
  constructor
  · norm_num [calculate_optimal_allocation, buildWeights, buildWeightsStep,
      upsert, strategyWeight, capA, capB, MIN_IDLE_BUFFER_BPS, BASIS_POINTS,
      min_def, List.foldl, show ("capA" : String) ≠ "capB" from by decide]
  · norm_num [capA]

/-- C8 (amended): the `max_allocation` cap is enforced on each strategy's
pre-normalization weight — every strategy's recorded weight is
`min(apy × (1 − utilization), max_allocation) ≤ max_allocation` — but not
on the normalized target, which can exceed the cap. -/
theorem optimizer_weight_capped (allocations : List StrategyAllocation)
    (hnd : (allocations.map StrategyAllocation.name).Nodup)
    (a : StrategyAllocation) (ha : a ∈ allocations) :
    (a.name, strategyWeight a) ∈ (buildWeights allocations).1 ∧
    strategyWeight a ≤ a.max_allocation := by
  constructor
  · rw [buildWeights_eq allocations hnd]
    exact List.mem_map_of_mem _ ha
  · exact min_le_right _ _

/-- Witness for the amended C8 on the two-strategy counterexample list. -/
theorem optimizer_weight_capped_witness :
    (capA.name, strategyWeight capA) ∈ (buildWeights [capA, capB]).1 ∧
    strategyWeight capA ≤ capA.max_allocation :=
  optimizer_weight_capped [capA, capB] (by simp [capA, capB]) capA
    (List.mem_cons_self _ _)

/-- C6 counterexample: on the spec's worked example (TVL $10,000,000,
deviation 1500 bps, `from` holding $4,000,000, `to` capped at 2000 bps and
holding $1,000,000) the computed amount is $600,000 and the cap clamp does
not fire — the amount is within the target's $1,000,000 headroom — so the
claimed reduction to $1,000,000 does not happen. -/
theorem rebalance_amount_example_not_clamped :
    computeRebalanceAmount specFrom specTo (3/20) 10000000 = some 600000 ∧
    computeRebalanceAmount specFrom specTo (3/20) 10000000 ≠ some 1000000 := by
  have heval : computeRebalanceAmount specFrom specTo (3/20) 10000000 = some 600000 := by
    norm_num [computeRebalanceAmount, specFrom, specTo, MAX_SINGLE_REBALANCE_BPS,
      BASIS_POINTS, min_def]
  refine ⟨heval, ?_⟩
  rw [heval]
  intro hc
  exact absurd (Option.some.inj hc) (by norm_num)

/-- C6 (amended): a proposed amount is the minimum of
`from.total_deposited × deviation` and `tvl × 1500/10000`, clamped downward
to the target's headroom so that `to.total_deposited + amount` never
exceeds `to.max_allocation × tvl`, with no proposal when the final amount
is ≤ 0; on the spec's worked example the clamp does not fire and the
amount is $600,000 (not $1,000,000). -/
theorem rebalance_amount_bounded (from_strat to_strat : StrategyAllocation)
    (max_deviation tvl a : ℚ) (htvl : 0 < tvl)
    (h : computeRebalanceAmount from_strat to_strat max_deviation tvl = some a) :
    (0 < a ∧
     a ≤ min (from_strat.total_deposited * max_deviation)
        (tvl * MAX_SINGLE_REBALANCE_BPS / BASIS_POINTS) ∧
     to_strat.total_deposited + a ≤ to_strat.max_allocation * tvl) ∧
    computeRebalanceAmount specFrom specTo (3/20) 10000000 = some 600000 := by
  have heval : computeRebalanceAmount specFrom specTo (3/20) 10000000 = some 600000 := by
    norm_num [computeRebalanceAmount, specFrom, specTo, MAX_SINGLE_REBALANCE_BPS,
      BASIS_POINTS, min_def]
  refine ⟨?_, heval⟩
  simp only [computeRebalanceAmount] at h
  set m := min (from_strat.total_deposited * max_deviation)
    (tvl * MAX_SINGLE_REBALANCE_BPS / BASIS_POINTS) with hm
  by_cases hclamp : to_strat.max_allocation < (to_strat.total_deposited + m) / tvl
  · rw [if_pos hclamp] at h
    by_cases hz : to_strat.max_allocation * tvl - to_strat.total_deposited ≤ 0
    · rw [if_pos hz] at h
      cases h
    · rw [if_neg hz] at h
      have ha : a = to_strat.max_allocation * tvl - to_strat.total_deposited :=
        (Option.some.inj h).symm
      have hub : to_strat.max_allocation * tvl < to_strat.total_deposited + m :=
        (lt_div_iff₀ htvl).mp hclamp
      refine ⟨ha ▸ not_le.mp hz, ?_, ?_⟩
      · rw [ha]
        linarith
      · rw [ha]
        linarith
  · rw [if_neg hclamp] at h
    by_cases hz : m ≤ 0
    · rw [if_pos hz] at h
      cases h
    · rw [if_neg hz] at h
      have ha : a = m := (Option.some.inj h).symm
      have hub : to_strat.total_deposited + m ≤ to_strat.max_allocation * tvl := by
        have := (div_le_iff₀ htvl).mp (not_lt.mp hclamp)
        linarith
      exact ⟨ha ▸ not_le.mp hz, le_of_eq ha, ha ▸ hub⟩

/-- Witness for the amended C6 at the spec's worked example. -/
theorem rebalance_amount_bounded_witness :
    (0 : ℚ) < 10000000 ∧
    ((0 : ℚ) < 600000 ∧
     (600000 : ℚ) ≤ min (specFrom.total_deposited * (3/20))
        (10000000 * MAX_SINGLE_REBALANCE_BPS / BASIS_POINTS) ∧
     specTo.total_deposited + 600000 ≤ specTo.max_allocation * 10000000) := by
  have hwit := rebalance_amount_bounded specFrom specTo (3/20) 10000000 600000
    (by norm_num)
    (by norm_num [computeRebalanceAmount, specFrom, specTo,
      MAX_SINGLE_REBALANCE_BPS, BASIS_POINTS, min_def])
  exact ⟨by norm_num, hwit.1⟩

/-- C4: the emergency-unwind batch handles each flagged strategy
independently — however a strategy in the middle of the list behaves
(including a raised exception, caught and recorded as a failure), the
strategies before and after it are still attempted with unchanged outcomes;
in particular, with 3 flagged strategies whose 2nd reverts, the 1st and 3rd
are still unwound to completion and recorded as successes. -/
theorem unwind_batch_failure_isolation
    (registry : List (String × String)) (unwind : String → Except String String)
    (pre post : List String) (n : String) :
    (execute_emergency_unwind registry unwind (pre ++ n :: post) =
      execute_emergency_unwind registry unwind pre ++
        unwindOne registry unwind n :: execute_emergency_unwind registry unwind post) ∧
    execute_emergency_unwind testRegistry failSecond ["s1", "s2", "s3"] =
      [("s1", UnwindOutcome.success "tx-0xaaa"),
       ("s2", UnwindOutcome.failed "execution reverted"),
       ("s3", UnwindOutcome.success "tx-0xccc")] := by
  refine ⟨?_, by decide⟩
  simp [execute_emergency_unwind_eq_map]

/-- Witness for C4 at the 3-strategy batch whose 2nd strategy reverts. -/
theorem unwind_batch_failure_isolation_witness :
    execute_emergency_unwind testRegistry failSecond (["s1"] ++ "s2" :: ["s3"]) =
      execute_emergency_unwind testRegistry failSecond ["s1"] ++
        unwindOne testRegistry failSecond "s2" ::
          execute_emergency_unwind testRegistry failSecond ["s3"] :=
  (unwind_batch_failure_isolation testRegistry failSecond ["s1"] ["s3"] "s2").1

/-- C9: for every current time and last-rebalance timestamp with
`now < lastRebalanceTime + 7 days`, the cooldown predicate returns false
together with a non-empty remaining-time message; otherwise it returns true
(with no message). -/
theorem cooldown_gate_spec (now lastRebalanceTime : ℤ) :
    (now < lastRebalanceTime + REBALANCE_COOLDOWN →
      (can_rebalance now lastRebalanceTime).1 = false ∧
      ∃ s, (can_rebalance now lastRebalanceTime).2 = some s ∧ s ≠ "") ∧
    (lastRebalanceTime + REBALANCE_COOLDOWN ≤ now →
      can_rebalance now lastRebalanceTime = (true, none)) := by
  constructor
  · intro hlt
    rw [can_rebalance, if_pos hlt]
    refine ⟨rfl, _, rfl, ?_⟩
    intro h
    have := congrArg String.length h
    simp [String.length_append] at this
    obtain ⟨⟨hA, -⟩, -⟩ := this
    exact absurd hA.1.1 (by decide)
  · intro hge
    rw [can_rebalance, if_neg (not_lt.mpr hge)]

/-- Witness for C9 on both sides of the cooldown boundary. -/
theorem cooldown_gate_spec_witness :
    ((0 : ℤ) < 0 + REBALANCE_COOLDOWN ∧
      (can_rebalance 0 0).1 = false ∧
      ∃ s, (can_rebalance 0 0).2 = some s ∧ s ≠ "") ∧
    ((0 : ℤ) + REBALANCE_COOLDOWN ≤ 700000 ∧
      can_rebalance 700000 0 = (true, none)) := by
  refine ⟨⟨by decide, (cooldown_gate_spec 0 0).1 (by decide)⟩,
    by decide, (cooldown_gate_spec 700000 0).2 (by decide)⟩

/-- C10: when the assessor call succeeds but its response text cannot be
parsed as JSON, `analyze_risk` does not raise: it returns an analysis with
composite and all component scores 7000, risk level HIGH_RISK and no
emergency unwind; fed back to the orchestrator, such a (returned, not
raised) analysis consumes no retries — the retry driver makes one attempt
and no back-off sleeps — and its score differs from the 7500 of the
retry-exhaustion degrade. -/
theorem parse_failure_fallback (e : String) :
    (analyze_risk_from_parse (Except.error e)).composite_score = 7000 ∧
    (analyze_risk_from_parse (Except.error e)).protocol_risk = 7000 ∧
    (analyze_risk_from_parse (Except.error e)).liquidity_risk = 7000 ∧
    (analyze_risk_from_parse (Except.error e)).utilization_risk = 7000 ∧
    (analyze_risk_from_parse (Except.error e)).governance_risk = 7000 ∧
    (analyze_risk_from_parse (Except.error e)).oracle_risk = 7000 ∧
    (analyze_risk_from_parse (Except.error e)).risk_level = "HIGH_RISK" ∧
    (analyze_risk_from_parse (Except.error e)).should_emergency_unwind = false ∧
    emergencyUnwindTriggered (analyze_risk_from_parse (Except.error e)) = false ∧
    run_risk_analysis_with_retry
        (fun _ : ℕ => Except.ok (analyze_risk_from_parse (Except.error e)))
      = ([], 1, analyze_risk_from_parse (Except.error e)) ∧
    (analyze_risk_from_parse (Except.error e)).composite_score ≠
      (conservativeAnalysis (some e)).composite_score := by
  refine ⟨rfl, rfl, rfl, rfl, rfl, rfl, rfl, rfl, rfl, ?_, ?_⟩
  · simp [run_risk_analysis_with_retry, MAX_RETRIES, runRetryAux]
  · simp [analyze_risk_from_parse, parseFallbackResult, conservativeAnalysis]

/-- Witness for C10 at a concrete parse error message. -/
theorem parse_failure_fallback_witness :
    (analyze_risk_from_parse (Except.error "Expecting value")).composite_score = 7000 ∧
    (analyze_risk_from_parse (Except.error "Expecting value")).risk_level = "HIGH_RISK" := by
  refine ⟨(parse_failure_fallback "Expecting value").1, ?_⟩
  exact (parse_failure_fallback "Expecting value").2.2.2.2.2.2.1

end Nexxore
